import Mathlib

/-!
Verification of the `surepy` command-line client (`surepy/cli.py`).

The development shallowly embeds the parts of `cli.py` with real logic:

* the per-command control flow as a trace of observable effects
  (`Event`) plus a final `Outcome`, with the remote facade
  (`SurePetcare`) replaced by explicit oracle parameters;
* the token persistence logic of the `token` command (`persistToken`);
* the notification table construction (`notifColumns` / `notifRows`);
* the report pipeline: per-pet datapoint selection (sort descending by
  the "from" timestamp, truncate to 25) and per-datapoint row
  computation with the wall clock made an explicit oracle
  (`processDatapoints`).

Timestamps are modelled as `Int` instants (a time zone only changes the
rendering of an instant, never its ordering or differences, so it is
irrelevant to every property below).  Python dictionaries with possibly
missing keys are modelled with `Option`: subscripting a missing key is a
`KeyError`, `dict.get` with a default is total.  Fallible computations
return `Except`.
-/

namespace SurepyCli

/-- Observable effects of one command invocation, in order. -/
inductive Event where
  /-- `await sp.sac.close_session()` -/
  | closeSession
  /-- `console.print(data)` of the raw structured payload in json mode -/
  | printData (payload : String)
  /-- the table row-building step of a fetch command -/
  | rowBuild
  /-- a remote mutating/control call, by name -/
  | remoteCall (callName : String)
  /-- a confirmed-success message (`spinner.succeed` / `console.print`) -/
  | successMsg
  /-- an ambiguous-outcome message (`spinner.fail` / fishy message) -/
  | ambiguousMsg
  /-- `exit(code)` -/
  | exitProc (code : Nat)
  deriving DecidableEq

/-- Error taxonomy of the specification (section 7). -/
inductive CmdError where
  | deviceNotFound
  | petNotFound
  | noCredential
  deriving DecidableEq

/-- How an invocation ends: falling off the handler, `exit(code)`, or a
surfaced failure. -/
inductive Outcome where
  | returned
  | exited (code : Nat)
  | failed (e : CmdError)
  deriving DecidableEq

/-- Number of `closeSession` events in a trace. -/
def countClose (evs : List Event) : Nat :=
  (evs.filter (fun e => match e with | Event.closeSession => true | _ => false)).length

/-- The remote mutating calls of a trace, in order. -/
def remoteCalls (evs : List Event) : List String :=
  evs.filterMap (fun e => match e with | Event.remoteCall n => some n | _ => none)

/-- Whether the row-building step ran. -/
def hasRowBuild (evs : List Event) : Bool :=
  evs.any (fun e => match e with | Event.rowBuild => true | _ => false)

/-- Embedding of `json_response` (cli.py 76-86): in json mode it closes
the session when an `sp` client was handed in, prints the payload and
exits with code 0; otherwise it does nothing.  Returns the events and
whether the process exited. -/
def jsonResponse (ctxJson : Bool) (hasSp : Bool) (payload : String) : List Event × Bool :=
  if ctxJson then
    ((if hasSp then [Event.closeSession] else []) ++
      [Event.printData payload, Event.exitProc 0], true)
  else ([], false)

/-- Embedding of the `pets` command (cli.py 166-207): fetch, `json_response`
without `sp` (so no session close), then build and print the table.  The
session is never closed on any path. -/
def petsCmd (ctxJson : Bool) (payload : String) : List Event × Outcome :=
  match jsonResponse ctxJson false payload with
  | (evs, true) => (evs, Outcome.exited 0)
  | (evs, false) => (evs ++ [Event.rowBuild], Outcome.returned)

/-- Embedding of the `devices` command (cli.py 216-248): same shape as
`pets`; `json_response` is called without `sp`. -/
def devicesCmd (ctxJson : Bool) (payload : String) : List Event × Outcome :=
  match jsonResponse ctxJson false payload with
  | (evs, true) => (evs, Outcome.exited 0)
  | (evs, false) => (evs ++ [Event.rowBuild], Outcome.returned)

/-- Embedding of the `report` command's outer flow (cli.py 261-317):
`json_response` is called **with** `sp` (so raw mode closes the session),
then rows are built only when the payload has a truthy `"data"` entry.
The rendered path never closes the session. -/
def reportCmd (ctxJson : Bool) (payload : String) (hasData : Bool) : List Event × Outcome :=
  match jsonResponse ctxJson true payload with
  | (evs, true) => (evs, Outcome.exited 0)
  | (evs, false) =>
    if hasData then (evs ++ [Event.rowBuild], Outcome.returned)
    else (evs, Outcome.returned)

/-- Embedding of the `notification` command's outer flow (cli.py 326-352):
a falsy payload (`none`) skips everything; otherwise `json_response`
without `sp`, then rows are built only when `json_data.get("data")` is
truthy.  The session is never closed. -/
def notificationCmd (ctxJson : Bool) (payload : Option (String × Bool)) :
    List Event × Outcome :=
  match payload with
  | none => ([], Outcome.returned)
  | some (raw, hasData) =>
    match jsonResponse ctxJson false raw with
    | (evs, true) => (evs, Outcome.exited 0)
    | (evs, false) =>
      if hasData then (evs ++ [Event.rowBuild], Outcome.returned)
      else (evs, Outcome.returned)

/-- Result of `await sp.flap(flap_id=...)`: the object's display name and
whether `type(flap) == Flap` holds. -/
structure FlapResult where
  flapName : String
  isFlap : Bool
  deriving DecidableEq

/-- Oracle for the remote interactions of the `locking` command: the
initial flap lookup, the boolean result of the lock-control call, and the
confirmation re-fetch. -/
structure LockEnv where
  flapLookup : Option FlapResult
  lockResult : Bool
  refetch : Option FlapResult
  deriving DecidableEq

/-- The remote control call `locking` assigns for each mode
(cli.py 385-397).  For mode `"in"` the source sets only
`state = "locked in"` and never assigns `lock_control`, so no call is
associated with it. -/
def lockControlFor (mode : String) : Option String :=
  if mode = "lock" then some "lock"
  else if mode = "in" then none
  else if mode = "out" then some "lock_out"
  else if mode = "unlock" then some "unlock"
  else none

/-- Embedding of the `locking` command (cli.py 371-413).  A failed lookup
or a non-`Flap` object skips the whole body (no message, no close, no
error).  A mode outside the four choices hits `else: return` before the
control block (unreachable through the CLI, which restricts choices).
Otherwise, when a control call is assigned it is invoked and the
success/ambiguous message depends on the call result and the re-fetch;
finally the session is closed. -/
def lockingCmd (mode : String) (env : LockEnv) : List Event × Outcome :=
  match env.flapLookup with
  | none => ([], Outcome.returned)
  | some flap =>
    if flap.isFlap = false then ([], Outcome.returned)
    else if mode = "lock" ∨ mode = "in" ∨ mode = "out" ∨ mode = "unlock" then
      let callEvs : List Event :=
        match lockControlFor mode with
        | none => []
        | some c =>
          Event.remoteCall c ::
            (if env.lockResult && env.refetch.isSome then [Event.successMsg]
             else [Event.ambiguousMsg])
      (callEvs ++ [Event.closeSession], Outcome.returned)
    else ([], Outcome.returned)

/-- Result of `await sp.pet(pet_id=...)`: display name and whether
`type(pet) == Pet` holds. -/
structure PetResult where
  petName : String
  isPet : Bool
  deriving DecidableEq

/-- Oracle for the remote interactions of the `position` command. -/
structure PosEnv where
  petLookup : Option PetResult
  setResult : Bool
  deriving DecidableEq

/-- Embedding of the `position` command (cli.py 429-458): failed lookup or
non-`Pet` object skips everything; a position outside {in, out} hits
`else: return` before the call; otherwise `set_position` is invoked, a
success or fishy message printed, and the session closed. -/
def positionCmd (pos : String) (env : PosEnv) : List Event × Outcome :=
  match env.petLookup with
  | none => ([], Outcome.returned)
  | some pet =>
    if pet.isPet = false then ([], Outcome.returned)
    else if pos = "in" ∨ pos = "out" then
      (Event.remoteCall "set_position" ::
        (if env.setResult then [Event.successMsg] else [Event.ambiguousMsg]) ++
        [Event.closeSession], Outcome.returned)
    else ([], Outcome.returned)

/-- Persisted token state: the primary token file and its backup
(`~/.surepy.token` and `~/.surepy.old_token`), `none` when absent. -/
structure FS where
  primary : Option String
  backup : Option String
  deriving DecidableEq

/-- Embedding of the persistence step of the `token` command
(cli.py 147-150): if the primary file exists and its content differs from
the new token, its content is first copied to the backup file; then the
primary file is overwritten with the new token. -/
def persistToken (tok : String) (fs : FS) : FS :=
  match fs.primary with
  | some cur =>
    if tok ≠ cur then FS.mk (some tok) (some cur)
    else FS.mk (some tok) fs.backup
  | none => FS.mk (some tok) fs.backup

/-- Embedding of the `token` command (cli.py 135-157): when a token was
obtained it is persisted via `persistToken`; on both branches the session
is closed exactly once inside the spinner block. -/
def tokenCmd (fetched : Option String) (fs : FS) : List Event × FS :=
  match fetched with
  | some t => ([Event.closeSession], persistToken t fs)
  | none => ([Event.closeSession], fs)

/-- The three credential sources of the resolution chain. -/
inductive CredSource where
  | explicitFlag
  | envVar
  | tokenFile
  deriving DecidableEq

/-- The sources `token_available` (cli.py 64-73) presents to the operator
when no token was found: the `--token` flag, the `TOKEN_ENV` environment
variable, and the token file path. -/
def noTokenSources : List CredSource :=
  [CredSource.explicitFlag, CredSource.envVar, CredSource.tokenFile]

/-- Python truthiness of an optional string: `None` and the empty string
are falsy. -/
def truthyStr (s : Option String) : Option String :=
  match s with
  | some v => if v = "" then none else some v
  | none => none

/-- Modelled from the spec: the credential resolution chain itself lives
in the `SurePetcare` client constructor in `surepy/__init__.py`, which is
not part of `src/`; only its caller and the failure message
(`token_available`, cli.py 64-73) are.  Spec section 4.1: resolution is
strict and short-circuiting — explicit flag value, then environment
variable, then the content of the primary persisted file — and fails with
`NoCredential` when none of the three is non-empty. -/
def resolve (explicitTok envTok fileTok : Option String) :
    Except CmdError (String × CredSource) :=
  match truthyStr explicitTok with
  | some t => Except.ok (t, CredSource.explicitFlag)
  | none =>
    match truthyStr envTok with
    | some t => Except.ok (t, CredSource.envVar)
    | none =>
      match truthyStr fileTok with
      | some t => Except.ok (t, CredSource.tokenFile)
      | none => Except.error CmdError.noCredential

/-- A notification entry: a Python dict as an association list in
insertion order (values already rendered with `str`). -/
abbrev NotifEntry := List (String × String)

/-- First-occurrence deduplication, keeping each key once.  Python's
`set` iteration order is unspecified; only the membership (the column
*set*) is meaningful, which this preserves. -/
def dedupKeys : List String → List String
  | [] => []
  | k :: ks => k :: (dedupKeys ks).filter (fun k2 => k2 != k)

/-- Embedding of the column computation of `notification`
(cli.py 343-347): `all_keys` is the set union of the key sets of all
entries. -/
def notifColumns (data : List NotifEntry) : List String :=
  dedupKeys ((data.map (fun e => e.map Prod.fst)).flatten)

/-- Embedding of the row emission of `notification` (cli.py 349-350):
each row is `[str(e) for e in entry.values()]` — the entry's own values
in the entry's own key order, with no reordering to the column order and
no padding for columns the entry lacks. -/
def notifRows (data : List NotifEntry) : List (List String) :=
  data.map (fun e => e.map Prod.snd)

/-- A movement datapoint of the report payload.  `toKey` / `durationKey`
are `none` when the corresponding dict key is absent; `activeKey` is
whether the `"active"` key is present. -/
structure Datapoint where
  fromTime : Int
  toKey : Option Int
  activeKey : Bool
  durationKey : Option Int
  deriving DecidableEq

/-- The ordering relation of `datapoints.sort(key=..., reverse=True)`
(cli.py 289): `a` may precede `b` iff `b`'s start is not after `a`'s. -/
def newerFirst (a b : Datapoint) : Prop := b.fromTime ≤ a.fromTime

instance : DecidableRel newerFirst := fun a b =>
  inferInstanceAs (Decidable (b.fromTime ≤ a.fromTime))

instance : IsTotal Datapoint newerFirst :=
  ⟨fun a b => Or.symm (le_total a.fromTime b.fromTime)⟩

instance : IsTrans Datapoint newerFirst :=
  ⟨fun _ _ _ hab hbc => le_trans hbc hab⟩

/-- Embedding of `datapoints.sort(key=lambda x: ..., reverse=True)`
(cli.py 289).  Python's `list.sort` guarantees a stable sort, and with
`reverse=True` a stable arrangement into non-increasing key order; a
sorted stable permutation is unique, and `List.insertionSort` with the
total relation `newerFirst` computes exactly it. -/
def pySortDesc (dps : List Datapoint) : List Datapoint :=
  List.insertionSort newerFirst dps

/-- The movement object of a pet entry; `datapointsKey` is `none` when
the `"datapoints"` key is absent, `some none` when it is `null` (falsy),
`some (some dps)` when it is a list. -/
structure MovementObj where
  datapointsKey : Option (Option (List Datapoint))
  deriving DecidableEq

/-- A pet entry of the report payload.  `movementKey` is `none` when the
`"movement"` key is absent (so `pet["movement"]` raises `KeyError`),
`some none` when its value is falsy (`null` / empty dict), and
`some (some mov)` when it is a truthy movement object. -/
structure PetEntry where
  petId : Nat
  movementKey : Option (Option MovementObj)
  deriving DecidableEq

/-- Python exceptions that the embedded report pipeline can raise. -/
inductive PyErr where
  | keyError
  deriving DecidableEq

/-- Embedding of the per-pet datapoint selection of `report`
(cli.py 284-291): `pet["movement"]` raises `KeyError` when the key is
absent; a falsy movement skips the pet; `movement["datapoints"]` raises
`KeyError` when that key is absent; a falsy (null or empty) datapoint
list skips the pet; otherwise the datapoints are sorted by `"from"`
descending and truncated to the first 25. -/
def petSelectedDps (pet : PetEntry) : Except PyErr (List Datapoint) :=
  match pet.movementKey with
  | none => Except.error PyErr.keyError
  | some none => Except.ok []
  | some (some mov) =>
    match mov.datapointsKey with
    | none => Except.error PyErr.keyError
    | some none => Except.ok []
    | some (some dps) =>
      if dps = [] then Except.ok []
      else Except.ok ((pySortDesc dps).take 25)

/-- The selections of all pet entries of one report payload, in order; an
exception aborts the pass (the table is only printed at the very end, so
nothing is emitted on error). -/
def reportSelectedDps : List PetEntry → Except PyErr (List (List Datapoint))
  | [] => Except.ok []
  | p :: ps =>
    match petSelectedDps p with
    | Except.error e => Except.error e
    | Except.ok dps =>
      match reportSelectedDps ps with
      | Except.error e => Except.error e
      | Except.ok rest => Except.ok (dps :: rest)

/-- One emitted report row (the fields the claims are about): start
instant, end instant (`none` renders as the placeholder dash), and the
duration in seconds passed to `natural_time`. -/
structure Row where
  fromTime : Int
  toTime : Option Int
  duration : Int
  deriving DecidableEq

/-- Embedding of the per-datapoint row computation of `report`
(cli.py 293-315), with the wall clock an explicit oracle: the `k`-th call
of `datetime.now` in this render pass returns `clock k` (the time zone
passed to `now` only relocates the rendering of the instant and cancels
in the subtraction).  A datapoint carrying the `"active"` key gets
`to_time = None` and its duration recomputed as now minus start, with
`now` sampled at that row's processing; a datapoint without it reads
`datapoint["to"]` and `datapoint["duration"]`, raising `KeyError` when
either key is absent.  Returns the rows and the final clock index. -/
def processDatapoints (clock : Nat → Int) : Nat → List Datapoint → Except PyErr (List Row × Nat)
  | k, [] => Except.ok ([], k)
  | k, dp :: rest =>
    if dp.activeKey then
      match processDatapoints clock (k + 1) rest with
      | Except.ok (rows, kf) =>
        Except.ok (Row.mk dp.fromTime none (clock k - dp.fromTime) :: rows, kf)
      | Except.error e => Except.error e
    else
      match dp.toKey with
      | none => Except.error PyErr.keyError
      | some t =>
        match dp.durationKey with
        | none => Except.error PyErr.keyError
        | some d =>
          match processDatapoints clock k rest with
          | Except.ok (rows, kf) =>
            Except.ok (Row.mk dp.fromTime (some t) d :: rows, kf)
          | Except.error e => Except.error e

/-- Number of active-marked datapoints among the first `i`. -/
def countActiveBefore (dps : List Datapoint) (i : Nat) : Nat :=
  ((dps.take i).filter (fun d => d.activeKey)).length

/-- After persisting, the primary file always holds the new token. -/
theorem persistToken_primary (t : String) (fs : FS) : (persistToken t fs).primary = some t := by
  obtain ⟨p, bk⟩ := fs
  cases p with
  | none => rfl
  | some cur => by_cases h : t = cur <;> simp [persistToken, h]

/-- C7: token persistence — when the primary file is absent the new token
is written with no backup; when it exists, a backup of the old content is
made exactly when the content differs; persisting the same value twice
leaves the backup of the first write untouched; persisting two different
values leaves exactly the prior value in the backup. -/
theorem token_persistence_spec (t t1 t2 cur : String) (b : Option String) (fs : FS)
    (hne : t1 ≠ t2) :
    persistToken t (FS.mk none b) = FS.mk (some t) b ∧
    persistToken t (FS.mk (some cur) b) =
      (if t = cur then FS.mk (some t) b else FS.mk (some t) (some cur)) ∧
    (persistToken t (persistToken t fs)).backup = (persistToken t fs).backup ∧
    persistToken t2 (persistToken t1 fs) = FS.mk (some t2) (some t1) := by
  refine ⟨rfl, ?_, ?_, ?_⟩
  · by_cases h : t = cur <;> simp [persistToken, h]
  · have hp := persistToken_primary t fs
    rcases hfs : persistToken t fs with ⟨p', b'⟩
    rw [hfs] at hp
    simp only at hp
    subst hp
    simp [persistToken]
  · have hp := persistToken_primary t1 fs
    have h21 : t2 ≠ t1 := fun h => hne h.symm
    rcases hfs : persistToken t1 fs with ⟨p', b'⟩
    rw [hfs] at hp
    simp only at hp
    subst hp
    simp [persistToken, h21]

theorem token_persistence_spec_witness :
    ("alpha" : String) ≠ "beta" ∧
    (persistToken "tok" (FS.mk none (some "bk")) = FS.mk (some "tok") (some "bk") ∧
      persistToken "tok" (FS.mk (some "cur") (some "bk")) =
        (if ("tok" : String) = "cur" then FS.mk (some "tok") (some "bk")
         else FS.mk (some "tok") (some "cur")) ∧
      (persistToken "tok" (persistToken "tok" (FS.mk (some "x") none))).backup
        = (persistToken "tok" (FS.mk (some "x") none)).backup ∧
      persistToken "beta" (persistToken "alpha" (FS.mk (some "x") none))
        = FS.mk (some "beta") (some "alpha")) :=
  ⟨by decide, token_persistence_spec "tok" "alpha" "beta" "cur" (some "bk")
    (FS.mk (some "x") none) (by decide)⟩

/-- C4: credential resolution is strict and short-circuiting — the
explicit value wins whenever non-empty regardless of the lower sources,
then the environment variable, then the file; when all three are empty it
fails with `NoCredential` and the operator is shown the three checked
sources. -/
theorem resolve_priority (e v f : Option String) :
    (∀ t, truthyStr e = some t → resolve e v f = Except.ok (t, CredSource.explicitFlag)) ∧
    (truthyStr e = none → ∀ t, truthyStr v = some t →
      resolve e v f = Except.ok (t, CredSource.envVar)) ∧
    (truthyStr e = none → truthyStr v = none → ∀ t, truthyStr f = some t →
      resolve e v f = Except.ok (t, CredSource.tokenFile)) ∧
    (truthyStr e = none → truthyStr v = none → truthyStr f = none →
      resolve e v f = Except.error CmdError.noCredential) ∧
    noTokenSources = [CredSource.explicitFlag, CredSource.envVar, CredSource.tokenFile] := by
  refine ⟨?_, ?_, ?_, ?_, rfl⟩
  · intro t h; simp [resolve, h]
  · intro he t h; simp [resolve, he, h]
  · intro he hv t h; simp [resolve, he, hv, h]
  · intro he hv hf; simp [resolve, he, hv, hf]

theorem resolve_priority_witness :
    truthyStr (some "tok") = some "tok" ∧
    resolve (some "tok") (some "env") (some "file")
      = Except.ok ("tok", CredSource.explicitFlag) :=
  ⟨rfl, (resolve_priority (some "tok") (some "env") (some "file")).1 "tok" rfl⟩

/-- C1: evaluation of the `locking` command on an existing lockable
device.  For the modes lock, out and unlock the corresponding remote
control call is invoked, but for mode in — the spec's LOCKED_IN — the
source never assigns `lock_control` (cli.py 388-389 set only the `state`
label), so no remote call at all is issued and the command just closes
the session. -/
theorem locking_mode_mapping_eval :
    remoteCalls (lockingCmd "lock" ⟨some ⟨"flap", true⟩, true, some ⟨"flap", true⟩⟩).1
      = ["lock"] ∧
    remoteCalls (lockingCmd "out" ⟨some ⟨"flap", true⟩, true, some ⟨"flap", true⟩⟩).1
      = ["lock_out"] ∧
    remoteCalls (lockingCmd "unlock" ⟨some ⟨"flap", true⟩, true, some ⟨"flap", true⟩⟩).1
      = ["unlock"] ∧
    remoteCalls (lockingCmd "in" ⟨some ⟨"flap", true⟩, true, some ⟨"flap", true⟩⟩).1 = [] ∧
    (lockingCmd "in" ⟨some ⟨"flap", true⟩, true, some ⟨"flap", true⟩⟩).1
      = [Event.closeSession] := by
  refine ⟨rfl, rfl, rfl, rfl, rfl⟩

/-- C10 (amended): when the device id does not resolve to an existing
`Flap`, the `locking` command issues no remote mutating call, but it does
not surface any error either — it silently returns, without even closing
the session. -/
theorem locking_unresolved_device_silent (mode : String) (env : LockEnv)
    (h : env.flapLookup = none) :
    remoteCalls (lockingCmd mode env).1 = [] ∧
    (lockingCmd mode env).2 = Outcome.returned ∧
    countClose (lockingCmd mode env).1 = 0 ∧
    (∀ nm lr rf, lockingCmd mode ⟨some ⟨nm, false⟩, lr, rf⟩ = ([], Outcome.returned)) := by
  obtain ⟨fl, lr, rf⟩ := env
  simp only [LockEnv.flapLookup] at h
  subst h
  refine ⟨rfl, rfl, rfl, ?_⟩
  intro nm lr2 rf2
  simp [lockingCmd]

theorem locking_unresolved_device_silent_witness :
    (⟨none, true, none⟩ : LockEnv).flapLookup = none ∧
    (remoteCalls (lockingCmd "out" ⟨none, true, none⟩).1 = [] ∧
      (lockingCmd "out" ⟨none, true, none⟩).2 = Outcome.returned ∧
      countClose (lockingCmd "out" ⟨none, true, none⟩).1 = 0 ∧
      (∀ nm lr rf, lockingCmd "out" ⟨some ⟨nm, false⟩, lr, rf⟩ = ([], Outcome.returned))) :=
  ⟨rfl, locking_unresolved_device_silent "out" ⟨none, true, none⟩ rfl⟩

/-- C10 counterexample: with a device id that resolves to nothing, the
`locking` command does not fail with `DeviceNotFound` as claimed — its
outcome is a plain silent return (while indeed issuing no remote call). -/
theorem locking_unresolved_device_cex :
    (lockingCmd "out" ⟨none, true, none⟩).2 = Outcome.returned ∧
    (lockingCmd "out" ⟨none, true, none⟩).2 ≠ Outcome.failed CmdError.deviceNotFound ∧
    remoteCalls (lockingCmd "out" ⟨none, true, none⟩).1 = [] := by
  refine ⟨rfl, ?_, rfl⟩
  intro h
  exact Outcome.noConfusion h

/-- C3 (amended): session closing per command and per path — the `token`
command always closes the session exactly once; `locking` and `position`
close it exactly once when the lookup yields the right entity type and
never when it does not; `report` closes it exactly once in raw json mode
and never in rendered mode; `pets`, `devices` and `notification` never
close it on any path. -/
theorem session_close_by_command :
    (∀ tok fs, countClose (tokenCmd tok fs).1 = 1) ∧
    (∀ j p, countClose (petsCmd j p).1 = 0) ∧
    (∀ j p, countClose (devicesCmd j p).1 = 0) ∧
    (∀ p hd, countClose (reportCmd true p hd).1 = 1) ∧
    (∀ p hd, countClose (reportCmd false p hd).1 = 0) ∧
    (∀ j pay, countClose (notificationCmd j pay).1 = 0) ∧
    (∀ nm lr rf, countClose (lockingCmd "lock" ⟨some ⟨nm, true⟩, lr, rf⟩).1 = 1 ∧
      countClose (lockingCmd "in" ⟨some ⟨nm, true⟩, lr, rf⟩).1 = 1 ∧
      countClose (lockingCmd "out" ⟨some ⟨nm, true⟩, lr, rf⟩).1 = 1 ∧
      countClose (lockingCmd "unlock" ⟨some ⟨nm, true⟩, lr, rf⟩).1 = 1) ∧
    (∀ mode lr rf, countClose (lockingCmd mode ⟨none, lr, rf⟩).1 = 0) ∧
    (∀ mode nm lr rf, countClose (lockingCmd mode ⟨some ⟨nm, false⟩, lr, rf⟩).1 = 0) ∧
    (∀ nm sr, countClose (positionCmd "in" ⟨some ⟨nm, true⟩, sr⟩).1 = 1 ∧
      countClose (positionCmd "out" ⟨some ⟨nm, true⟩, sr⟩).1 = 1) ∧
    (∀ pos sr, countClose (positionCmd pos ⟨none, sr⟩).1 = 0) ∧
    (∀ pos nm sr, countClose (positionCmd pos ⟨some ⟨nm, false⟩, sr⟩).1 = 0) := by
  refine ⟨?_, ?_, ?_, ?_, ?_, ?_, ?_, ?_, ?_, ?_, ?_, ?_⟩
  · intro tok fs; cases tok <;> rfl
  · intro j p; cases j <;> rfl
  · intro j p; cases j <;> rfl
  · intro p hd; rfl
  · intro p hd; cases hd <;> rfl
  · intro j pay
    match pay with
    | none => rfl
    | some (raw, hd) => cases j <;> cases hd <;> rfl
  · intro nm lr rf
    refine ⟨?_, ?_, ?_, ?_⟩ <;> cases lr <;> cases rf <;> rfl
  · intro mode lr rf; rfl
  · intro mode nm lr rf; rfl
  · intro nm sr
    refine ⟨?_, ?_⟩ <;> cases sr <;> rfl
  · intro pos sr; rfl
  · intro pos nm sr; rfl

/-- C3 counterexample: the `pets` command in raw json mode is an exit
path on which the open session is closed zero times, not exactly once
(`json_response` is called without `sp` there, cli.py 174). -/
theorem session_close_cex :
    countClose (petsCmd true "payload").1 = 0 ∧
    countClose (petsCmd true "payload").1 ≠ 1 := by
  refine ⟨rfl, ?_⟩
  intro h
  simp [petsCmd, jsonResponse, countClose] at h

/-- C8: in raw json mode every fetch command prints the structured
payload verbatim and exits with code 0 at once, and the row-building step
never runs (for `notification` this concerns invocations where a payload
was fetched at all; a falsy payload skips everything including
row-building). -/
theorem raw_mode_skips_rendering :
    (∀ p, hasRowBuild (petsCmd true p).1 = false ∧
      Event.printData p ∈ (petsCmd true p).1 ∧ (petsCmd true p).2 = Outcome.exited 0) ∧
    (∀ p, hasRowBuild (devicesCmd true p).1 = false ∧
      Event.printData p ∈ (devicesCmd true p).1 ∧ (devicesCmd true p).2 = Outcome.exited 0) ∧
    (∀ p hd, hasRowBuild (reportCmd true p hd).1 = false ∧
      Event.printData p ∈ (reportCmd true p hd).1 ∧
      (reportCmd true p hd).2 = Outcome.exited 0) ∧
    (∀ p hd, hasRowBuild (notificationCmd true (some (p, hd))).1 = false ∧
      Event.printData p ∈ (notificationCmd true (some (p, hd))).1 ∧
      (notificationCmd true (some (p, hd))).2 = Outcome.exited 0) ∧
    (∀ j, hasRowBuild (notificationCmd j none).1 = false) := by
  refine ⟨?_, ?_, ?_, ?_, ?_⟩
  · intro p; exact ⟨rfl, by simp [petsCmd, jsonResponse], rfl⟩
  · intro p; exact ⟨rfl, by simp [devicesCmd, jsonResponse], rfl⟩
  · intro p hd; exact ⟨rfl, by simp [reportCmd, jsonResponse], rfl⟩
  · intro p hd; exact ⟨rfl, by simp [notificationCmd, jsonResponse], rfl⟩
  · intro j; rfl

/-- C9 (amended): a pet entry whose movement value is present but falsy,
or whose datapoints value is present but falsy or the empty list,
contributes zero rows and raises no error; but a pet entry missing the
`"movement"` key — or a truthy movement missing the `"datapoints"` key —
raises a `KeyError` instead of contributing zero rows. -/
theorem report_empty_movement_zero_rows :
    (∀ pid, petSelectedDps ⟨pid, some none⟩ = Except.ok []) ∧
    (∀ pid, petSelectedDps ⟨pid, some (some ⟨some none⟩)⟩ = Except.ok []) ∧
    (∀ pid, petSelectedDps ⟨pid, some (some ⟨some (some [])⟩)⟩ = Except.ok []) ∧
    (∀ pid, petSelectedDps ⟨pid, none⟩ = Except.error PyErr.keyError) ∧
    (∀ pid, petSelectedDps ⟨pid, some (some ⟨none⟩)⟩ = Except.error PyErr.keyError) := by
  exact ⟨fun _ => rfl, fun _ => rfl, fun _ => rfl, fun _ => rfl, fun _ => rfl⟩

/-- C9 counterexample: a pet entry with no `"movement"` key at all — one
way for the movement datapoint list to be absent — makes the report pass
raise a `KeyError` rather than contribute zero rows. -/
theorem report_absent_movement_cex :
    petSelectedDps ⟨7, none⟩ = Except.error PyErr.keyError ∧
    petSelectedDps ⟨7, none⟩ ≠ Except.ok [] := by
  refine ⟨rfl, ?_⟩
  intro h
  exact Except.noConfusion h

/-- Deduplication changes no memberships. -/
theorem mem_dedupKeys (x : String) : ∀ l : List String, x ∈ dedupKeys l ↔ x ∈ l := by
  intro l
  induction l with
  | nil => simp [dedupKeys]
  | cons k ks ih =>
    by_cases hx : x = k
    · simp [dedupKeys, hx]
    · simp [dedupKeys, List.mem_filter, bne_iff_ne, hx, ih]

/-- Deduplication yields no duplicates. -/
theorem nodup_dedupKeys : ∀ l : List String, (dedupKeys l).Nodup := by
  intro l
  induction l with
  | nil => simp [dedupKeys]
  | cons k ks ih =>
    simp only [dedupKeys, List.nodup_cons]
    refine ⟨?_, ih.filter _⟩
    simp [List.mem_filter]

/-- C2 (amended): the rendered column set is exactly the duplicate-free
union of the field names of all entries, but each emitted row consists of
that entry's own values in the entry's own field order — nothing is
reordered into column order and no placeholder is inserted for a column
the entry lacks, so rows of entries missing fields are shorter than the
column list. -/
theorem notification_columns_union_rows_own_values (data : List NotifEntry) :
    (∀ k, k ∈ notifColumns data ↔ ∃ e ∈ data, k ∈ e.map Prod.fst) ∧
    (notifColumns data).Nodup ∧
    notifRows data = data.map (fun e => e.map Prod.snd) ∧
    (∀ i, ((notifRows data).getD i []).length = ((data.getD i []).map Prod.snd).length) := by
  refine ⟨?_, nodup_dedupKeys _, rfl, ?_⟩
  · intro k
    simp only [notifColumns, mem_dedupKeys, List.mem_flatten]
    constructor
    · rintro ⟨ks, hks, hk⟩
      obtain ⟨e, he, rfl⟩ := List.mem_map.mp hks
      exact ⟨e, he, hk⟩
    · rintro ⟨e, he, hk⟩
      exact ⟨e.map Prod.fst, List.mem_map.mpr ⟨e, he, rfl⟩, hk⟩
  · intro i
    simp only [notifRows]
    induction data generalizing i with
    | nil => simp
    | cons e es ih =>
      cases i with
      | zero => simp
      | succ j => simpa using ih j

/-- C2 counterexample: for the payload `[{a:1,b:2}, {b:3,c:4}]` the
column set does have the three members a, b, c, but the second emitted
row is `(3,4)` in the entry's own order — two cells against three
columns, not the aligned `(∅,3,4)` the claim requires, so values are
not placed in column order and the absent column yields no placeholder. -/
theorem notification_alignment_cex :
    (notifColumns [[("a", "1"), ("b", "2")], [("b", "3"), ("c", "4")]]).length = 3 ∧
    notifRows [[("a", "1"), ("b", "2")], [("b", "3"), ("c", "4")]] = [["1", "2"], ["3", "4"]] ∧
    ((notifRows [[("a", "1"), ("b", "2")], [("b", "3"), ("c", "4")]]).getD 1 []).length
      ≠ (notifColumns [[("a", "1"), ("b", "2")], [("b", "3"), ("c", "4")]]).length := by
  refine ⟨by decide, rfl, by decide⟩

/-- Inserting an element with `orderedInsert newerFirst` moves it past
strictly newer elements only, so the sublist of elements with any fixed
start timestamp is the same as for plain consing: this is the stability
of the insertion. -/
theorem orderedInsert_filter_fromTime (x : Datapoint) (k : Int) :
    ∀ l : List Datapoint,
      (List.orderedInsert newerFirst x l).filter (fun d => d.fromTime == k)
        = ((x :: l).filter (fun d => d.fromTime == k))
  | [] => rfl
  | y :: ys => by
    by_cases h : newerFirst x y
    · rw [List.orderedInsert, if_pos h]
    · have hlt : x.fromTime < y.fromTime := not_le.mp h
      have ih := orderedInsert_filter_fromTime x k ys
      rw [List.orderedInsert, if_neg h]
      by_cases hx : x.fromTime = k <;> by_cases hy : y.fromTime = k
      · exfalso; omega
      · simp [List.filter_cons, beq_iff_eq, hx, hy, ih]
      · simp [List.filter_cons, beq_iff_eq, hx, hy, ih]
      · simp [List.filter_cons, beq_iff_eq, hx, hy, ih]

/-- `pySortDesc` permutes its input. -/
theorem pySortDesc_perm (dps : List Datapoint) : List.Perm (pySortDesc dps) dps :=
  List.perm_insertionSort newerFirst dps

/-- `pySortDesc` arranges start timestamps in non-increasing (most recent
first) order. -/
theorem pySortDesc_sorted (dps : List Datapoint) : List.Sorted newerFirst (pySortDesc dps) :=
  List.sorted_insertionSort newerFirst dps

/-- Stability of `pySortDesc`: datapoints with any fixed start timestamp
appear in exactly their received order. -/
theorem pySortDesc_stable (k : Int) : ∀ dps : List Datapoint,
    (pySortDesc dps).filter (fun d => d.fromTime == k)
      = dps.filter (fun d => d.fromTime == k)
  | [] => rfl
  | dp :: rest => by
    have ih := pySortDesc_stable k rest
    simp only [pySortDesc, List.insertionSort] at ih ⊢
    rw [orderedInsert_filter_fromTime]
    cases hdp : (dp.fromTime == k) <;> simp [List.filter_cons, hdp, ih]

/-- Successful row-building emits exactly one row per retained datapoint,
in order (witnessed by the start timestamps). -/
theorem processDatapoints_ok_fromTimes (clock : Nat → Int) :
    ∀ (dps : List Datapoint) (k kf : Nat) (rows : List Row),
      processDatapoints clock k dps = Except.ok (rows, kf) →
      rows.map Row.fromTime = dps.map Datapoint.fromTime := by
  intro dps
  induction dps with
  | nil =>
    intro k kf rows h
    simp only [processDatapoints] at h
    simp at h
    obtain ⟨h1, _⟩ := h
    subst h1
    rfl
  | cons dp rest ih =>
    intro k kf rows h
    by_cases ha : dp.activeKey
    · simp only [processDatapoints, ha, if_true] at h
      cases hrec : processDatapoints clock (k + 1) rest with
      | error e => rw [hrec] at h; simp at h
      | ok pr =>
        obtain ⟨rows', kf'⟩ := pr
        rw [hrec] at h
        simp at h
        obtain ⟨h1, _⟩ := h
        subst h1
        simp [ih (k + 1) kf' rows' hrec]
    · simp only [processDatapoints, ha] at h
      cases hto : dp.toKey with
      | none => rw [hto] at h; simp at h
      | some t =>
        rw [hto] at h
        cases hdur : dp.durationKey with
        | none => rw [hdur] at h; simp at h
        | some d =>
          rw [hdur] at h
          cases hrec : processDatapoints clock k rest with
          | error e => rw [hrec] at h; simp at h
          | ok pr =>
            obtain ⟨rows', kf'⟩ := pr
            rw [hrec] at h
            simp at h
            obtain ⟨h1, _⟩ := h
            subst h1
            simp [ih k kf' rows' hrec]

/-- C5 (amended): in one successful render pass, row `i` is active
(placeholder end, duration recomputed) exactly when datapoint `i`
carries the `"active"` marker, and its duration is then
`now − start` where `now` is the clock sample taken at that row's own
processing step — the `(number of active rows before it)`-th call of
`datetime.now` — not one reference time shared by all rows; a datapoint
without the marker keeps its provided end timestamp and duration. -/
theorem report_duration_per_row_clock (clock : Nat → Int) :
    ∀ (dps : List Datapoint) (k kf : Nat) (rows : List Row),
      processDatapoints clock k dps = Except.ok (rows, kf) →
      rows.length = dps.length ∧
      ∀ i dpi ri, dps[i]? = some dpi → rows[i]? = some ri →
        (dpi.activeKey = true → ri.toTime = none ∧
          ri.duration = clock (k + countActiveBefore dps i) - dpi.fromTime) ∧
        (dpi.activeKey = false → ri.toTime = dpi.toKey ∧
          dpi.durationKey = some ri.duration) := by
  intro dps
  induction dps with
  | nil =>
    intro k kf rows h
    simp only [processDatapoints] at h
    simp at h
    obtain ⟨h1, _⟩ := h
    subst h1
    exact ⟨rfl, fun i dpi ri hdpi _ => absurd hdpi (by simp)⟩
  | cons dp rest ih =>
    intro k kf rows h
    by_cases ha : dp.activeKey
    · simp only [processDatapoints, ha, if_true] at h
      cases hrec : processDatapoints clock (k + 1) rest with
      | error e => rw [hrec] at h; simp at h
      | ok pr =>
        obtain ⟨rows', kf'⟩ := pr
        rw [hrec] at h
        simp at h
        obtain ⟨h1, _⟩ := h
        subst h1
        obtain ⟨ihlen, ihspec⟩ := ih (k + 1) kf' rows' hrec
        have hcount : countActiveBefore (dp :: rest) 0 = 0 := rfl
        refine ⟨by simp [ihlen], ?_⟩
        intro i dpi ri hdpi hri
        cases i with
        | zero =>
          simp only [List.getElem?_cons_zero, Option.some.injEq] at hdpi hri
          subst hdpi
          subst hri
          refine ⟨fun _ => ⟨rfl, ?_⟩, fun hfalse => absurd hfalse (by simp [ha])⟩
          rw [hcount, Nat.add_zero]
        | succ j =>
          rw [List.getElem?_cons_succ] at hdpi hri
          have hspec := ihspec j dpi ri hdpi hri
          have hcnt : countActiveBefore (dp :: rest) (j + 1)
              = countActiveBefore rest j + 1 := by
            simp [countActiveBefore, List.take_succ_cons, List.filter_cons, ha]
          refine ⟨?_, hspec.2⟩
          intro hact
          obtain ⟨ht, hd⟩ := hspec.1 hact
          refine ⟨ht, ?_⟩
          rw [hcnt]
          have harg : k + (countActiveBefore rest j + 1)
              = k + 1 + countActiveBefore rest j := by omega
          rw [harg]
          exact hd
    · simp only [processDatapoints, ha] at h
      cases hto : dp.toKey with
      | none => rw [hto] at h; simp at h
      | some t =>
        rw [hto] at h
        cases hdur : dp.durationKey with
        | none => rw [hdur] at h; simp at h
        | some d =>
          rw [hdur] at h
          cases hrec : processDatapoints clock k rest with
          | error e => rw [hrec] at h; simp at h
          | ok pr =>
            obtain ⟨rows', kf'⟩ := pr
            rw [hrec] at h
            simp at h
            obtain ⟨h1, _⟩ := h
            subst h1
            obtain ⟨ihlen, ihspec⟩ := ih k kf' rows' hrec
            refine ⟨by simp [ihlen], ?_⟩
            intro i dpi ri hdpi hri
            cases i with
            | zero =>
              simp only [List.getElem?_cons_zero, Option.some.injEq] at hdpi hri
              subst hdpi
              subst hri
              have hb : dp.activeKey = false := by simpa using ha
              refine ⟨fun htrue => absurd htrue (by simp [hb]), fun _ => ⟨?_, ?_⟩⟩
              · rw [hto]
              · rw [hdur]
            | succ j =>
              rw [List.getElem?_cons_succ] at hdpi hri
              have hspec := ihspec j dpi ri hdpi hri
              have hcnt : countActiveBefore (dp :: rest) (j + 1)
                  = countActiveBefore rest j := by
                simp [countActiveBefore, List.take_succ_cons, List.filter_cons, ha]
              refine ⟨?_, hspec.2⟩
              intro hact
              obtain ⟨ht, hd⟩ := hspec.1 hact
              refine ⟨ht, ?_⟩
              rw [hcnt]
              exact hd

theorem report_duration_per_row_clock_witness :
    processDatapoints (fun _ => 50) 0 [⟨7, none, true, none⟩]
      = Except.ok ([⟨7, none, 43⟩], 1) ∧
    (([⟨7, none, 43⟩] : List Row).length = ([⟨7, none, true, none⟩] : List Datapoint).length ∧
      ∀ (i : Nat) (dpi : Datapoint) (ri : Row),
        ([(⟨7, none, true, none⟩ : Datapoint)])[i]? = some dpi →
        ([(⟨7, none, 43⟩ : Row)])[i]? = some ri →
        (dpi.activeKey = true → ri.toTime = none ∧
          ri.duration = 50 - dpi.fromTime) ∧
        (dpi.activeKey = false → ri.toTime = dpi.toKey ∧
          dpi.durationKey = some ri.duration)) :=
  ⟨rfl, report_duration_per_row_clock (fun _ => 50) [⟨7, none, true, none⟩] 0 1
    [⟨7, none, 43⟩] rfl⟩

/-- C5 counterexample: two active datapoints with the same start, on a
clock that advances by one second between the two `datetime.now` calls,
get durations 0 and 1 — which no single shared reference time can
produce, refuting that the current-time reference is the same for all
rows of one render pass; and a datapoint with no end timestamp but no
`"active"` marker is not marked active at all — the pass raises a
`KeyError` reading `datapoint["to"]`. -/
theorem report_shared_now_cex :
    processDatapoints (fun k => (k : Int)) 0
        [⟨0, none, true, none⟩, ⟨0, some 99, true, some 7⟩]
      = Except.ok ([⟨0, none, 0⟩, ⟨0, none, 1⟩], 2) ∧
    (¬ ∃ now : Int, ∀ r ∈ ([⟨0, none, 0⟩, ⟨0, none, 1⟩] : List Row),
        r.duration = now - r.fromTime) ∧
    processDatapoints (fun k => (k : Int)) 0 [⟨5, none, false, some 3⟩]
      = Except.error PyErr.keyError := by
  refine ⟨rfl, ?_, rfl⟩
  rintro ⟨now, hnow⟩
  have h0 := hnow ⟨0, none, 0⟩ (by simp)
  have h1 := hnow ⟨0, none, 1⟩ (by simp)
  simp only at h0 h1
  omega

/-- C6: for a pet entry with a non-empty datapoint list the selection is
exactly the sorted list truncated to the first 25, where the sort is a
permutation arranging start timestamps most-recent-first and keeping
datapoints with equal starts in their received order; a successful row
pass emits one row per selected datapoint in that order; and the cap is
applied per pet — a two-pet payload yields both pets' 25-capped
selections side by side, not a globally capped set. -/
theorem report_sorted_capped_per_pet
    (pid1 pid2 : Nat) (dps dps1 dps2 : List Datapoint)
    (clock : Nat → Int) (k kf : Nat) (rows : List Row)
    (hne : dps ≠ []) (h1 : dps1 ≠ []) (h2 : dps2 ≠ [])
    (hrows : processDatapoints clock k ((pySortDesc dps).take 25) = Except.ok (rows, kf)) :
    petSelectedDps ⟨pid1, some (some ⟨some (some dps)⟩)⟩
      = Except.ok ((pySortDesc dps).take 25) ∧
    List.Perm (pySortDesc dps) dps ∧
    List.Sorted newerFirst (pySortDesc dps) ∧
    (∀ t : Int, (pySortDesc dps).filter (fun d => d.fromTime == t)
        = dps.filter (fun d => d.fromTime == t)) ∧
    ((pySortDesc dps).take 25).length = min 25 dps.length ∧
    rows.map Row.fromTime = ((pySortDesc dps).take 25).map Datapoint.fromTime ∧
    reportSelectedDps
        [⟨pid1, some (some ⟨some (some dps1)⟩)⟩, ⟨pid2, some (some ⟨some (some dps2)⟩)⟩]
      = Except.ok [(pySortDesc dps1).take 25, (pySortDesc dps2).take 25] := by
  refine ⟨?_, pySortDesc_perm dps, pySortDesc_sorted dps, fun t => pySortDesc_stable t dps,
    ?_, processDatapoints_ok_fromTimes clock _ k kf rows hrows, ?_⟩
  · simp [petSelectedDps, hne]
  · rw [List.length_take, (pySortDesc_perm dps).length_eq]
  · simp [reportSelectedDps, petSelectedDps, h1, h2]

theorem report_sorted_capped_per_pet_witness :
    ([⟨1, some 2, false, some 3⟩] : List Datapoint) ≠ [] ∧
    processDatapoints (fun _ => 0) 0 ((pySortDesc [⟨1, some 2, false, some 3⟩]).take 25)
      = Except.ok ([⟨1, some 2, 3⟩], 0) ∧
    (petSelectedDps ⟨2, some (some ⟨some (some [⟨1, some 2, false, some 3⟩])⟩)⟩
        = Except.ok ((pySortDesc [⟨1, some 2, false, some 3⟩]).take 25) ∧
      List.Perm (pySortDesc [⟨1, some 2, false, some 3⟩]) [⟨1, some 2, false, some 3⟩] ∧
      List.Sorted newerFirst (pySortDesc [⟨1, some 2, false, some 3⟩]) ∧
      (∀ t : Int, (pySortDesc [⟨1, some 2, false, some 3⟩]).filter (fun d => d.fromTime == t)
          = ([⟨1, some 2, false, some 3⟩] : List Datapoint).filter (fun d => d.fromTime == t)) ∧
      ((pySortDesc [⟨1, some 2, false, some 3⟩]).take 25).length
        = min 25 ([⟨1, some 2, false, some 3⟩] : List Datapoint).length ∧
      ([⟨1, some 2, 3⟩] : List Row).map Row.fromTime
        = ((pySortDesc [⟨1, some 2, false, some 3⟩]).take 25).map Datapoint.fromTime ∧
      reportSelectedDps
          [⟨2, some (some ⟨some (some [⟨1, some 2, false, some 3⟩])⟩)⟩,
            ⟨3, some (some ⟨some (some [⟨1, some 2, false, some 3⟩])⟩)⟩]
        = Except.ok [(pySortDesc [⟨1, some 2, false, some 3⟩]).take 25,
            (pySortDesc [⟨1, some 2, false, some 3⟩]).take 25]) :=
  ⟨by decide, rfl, report_sorted_capped_per_pet 2 3
    [⟨1, some 2, false, some 3⟩] [⟨1, some 2, false, some 3⟩] [⟨1, some 2, false, some 3⟩]
    (fun _ => 0) 0 0 [⟨1, some 2, 3⟩] (by decide) (by decide) (by decide) rfl⟩

end SurepyCli
